import Mathlib

/-!
# Verification of the users CRUD service

A shallow embedding of the request-to-response pipeline of a single-resource
CRUD HTTP service (users table): validation and sanitization of user records,
parameterized SQL construction for list/create/update/delete, pagination
normalization, and route-level id parsing and status mapping.

JavaScript strings are modelled as lists of code points (`JSStr`), JavaScript
numbers as rationals where fractional values matter (`age`) and as integers
where the program only ever produces integers (ids, page, limit). Fallible
operations return `Except`. The database is modelled as an explicit list of
rows together with the id sequence; standard SQL semantics (LIMIT/OFFSET,
UPDATE SET application) are modelled as pure functions on that state.
-/

/-- JavaScript strings, modelled as lists of code points. -/
abbrev JSStr := List Nat

/-- Code points of a Lean string literal, for writing concrete `JSStr` values. -/
def codes (s : String) : JSStr := s.data.map Char.toNat

/-- Whitespace recognized by `String.prototype.trim` (ASCII subset). -/
def isWs (n : Nat) : Bool :=
  n == 9 || n == 10 || n == 11 || n == 12 || n == 13 || n == 32

/-- Lower-casing of one code point, as `String.prototype.toLowerCase` acts on
ASCII letters. -/
def jsToLower (n : Nat) : Nat := if 65 ≤ n ∧ n ≤ 90 then n + 32 else n

/-- `s.trim()`: drop whitespace from both ends. -/
def jsTrim (s : JSStr) : JSStr := (s.dropWhile isWs).rdropWhile isWs

/-- `s.toLowerCase()`. -/
def jsLower (s : JSStr) : JSStr := s.map jsToLower

/-- JavaScript truthiness of an optional string: `undefined` and the empty
string are falsy. -/
def jsTruthy (o : Option JSStr) : Bool :=
  match o with
  | none => false
  | some s => !s.isEmpty

namespace USER_VALIDATION

def NAME_MIN_LENGTH : Nat := 2

def NAME_MAX_LENGTH : Nat := 100

def EMAIL_MAX_LENGTH : Nat := 255

def AGE_MIN : ℚ := 0

def AGE_MAX : ℚ := 100

def DEFAULT_PAGE : Int := 1

def DEFAULT_LIMIT : Int := 10

def MAX_LIMIT : Int := 100

end USER_VALIDATION

/-- A candidate user record: `CreateUserRequest` / `UpdateUserRequest`. A
field set to `none` is absent from the JavaScript object (reading it yields
`undefined`). -/
structure UserData where
  name : Option JSStr
  email : Option JSStr
  age : Option ℚ
deriving DecidableEq

/-- `validateUserData` from `models/User.ts`. Each field block runs when not
in update mode or when the field is present; `if (!x)` treats both `undefined`
and the falsy values (empty string, `0`) as missing. The `typeof` branches are
unreachable in this typed model and are omitted. Note that the source compares
the upper age bound against `AGE_MIN` and also interpolates `AGE_MIN` into the
too-large message. -/
def validateUserData (userData : UserData) (isUpdate : Bool := false) :
    List String :=
  (if !isUpdate || userData.name.isSome then
    match userData.name with
    | none => ["Name is required."]
    | some name =>
      if name.isEmpty then ["Name is required."]
      else if name.length < USER_VALIDATION.NAME_MIN_LENGTH then
        ["Name must be at least " ++ toString USER_VALIDATION.NAME_MIN_LENGTH]
      else if name.length > USER_VALIDATION.NAME_MAX_LENGTH then
        ["Name must be no more than " ++ toString USER_VALIDATION.NAME_MAX_LENGTH
          ++ " characters long"]
      else []
  else []) ++
  (if !isUpdate || userData.email.isSome then
    match userData.email with
    | none => ["Email is required."]
    | some email =>
      if email.isEmpty then ["Email is required."]
      else if email.length > USER_VALIDATION.EMAIL_MAX_LENGTH then
        ["Email must be no more than " ++ toString USER_VALIDATION.EMAIL_MAX_LENGTH
          ++ " characters long"]
      else []
  else []) ++
  (if !isUpdate || userData.age.isSome then
    match userData.age with
    | none => ["Age is required."]
    | some age =>
      if age = 0 then ["Age is required."]
      else if age < USER_VALIDATION.AGE_MIN then
        ["Age must be at least " ++ toString USER_VALIDATION.AGE_MIN]
      else if age > USER_VALIDATION.AGE_MIN then
        ["Age must be no more than " ++ toString USER_VALIDATION.AGE_MIN
          ++ " characters long"]
      else []
  else [])

/-- The `name` step of `sanitizeUserData`: `sanitized.name.trim()`, guarded by
the truthiness check (an empty string is falsy and is left untouched). -/
def sanitizeNameField (n : JSStr) : JSStr := if n.isEmpty then n else jsTrim n

/-- The `email` step of `sanitizeUserData`:
`sanitized.email.trim().toLowerCase()`, with the same truthiness guard. -/
def sanitizeEmailField (e : JSStr) : JSStr := if e.isEmpty then e else jsLower (jsTrim e)

/-- The `age` step of `sanitizeUserData`: `Math.floor(Number(sanitized.age))`;
`Number` is the identity on a number, and `0` is falsy so it is left
untouched. -/
def sanitizeAgeField (a : ℚ) : ℚ := if a = 0 then a else ((a.floor : Int) : ℚ)

/-- `sanitizeUserData` from `models/User.ts`: trim the name, trim and
lower-case the email, floor the age; each step is guarded by presence and
truthiness of the field, and absent fields are carried through untouched. -/
def sanitizeUserData (userData : UserData) : UserData :=
  { name := userData.name.map sanitizeNameField,
    email := userData.email.map sanitizeEmailField,
    age := userData.age.map sanitizeAgeField }

/-- One row of the users table. -/
structure UserRow where
  id : Int
  name : JSStr
  email : JSStr
  age : Option ℚ
  created_at : Int
  updated_at : Int
deriving DecidableEq

/-- The users table together with the auto-incrementing id sequence. -/
structure Db where
  rows : List UserRow
  nextId : Int
deriving DecidableEq

/-- A value bound as a SQL statement parameter. -/
inductive SqlValue
  | str (s : JSStr)
  | int (n : Int)
  | null
deriving DecidableEq

/-- Lean string from code points, used where the source interpolates a
user-supplied string into SQL text. -/
def strOfCodes (s : JSStr) : String := String.mk (s.map Char.ofNat)

/-- The template `` `%...%` `` wrapping applied to filter values. -/
def pctWrap (s : JSStr) : JSStr := codes "%" ++ s ++ codes "%"

/-- Code points of the template interpolation of a number. -/
def numCodes (n : Int) : JSStr := codes (toString n)

/-- JavaScript `x || d` for an optional number: `undefined` and `0` are
falsy. -/
def jsOrNum (v : Option Int) (d : Int) : Int :=
  match v with
  | none => d
  | some n => if n = 0 then d else n

/-- JavaScript `x || d` for an optional string: `undefined` and the empty
string are falsy. -/
def jsOrStr (v : Option JSStr) (d : JSStr) : JSStr :=
  match v with
  | none => d
  | some s => if s.isEmpty then d else s

/-- The typed query parameters of the list endpoint (`UserQueryParams`).
`sortBy` and `sortOrder` are arbitrary strings here: the route handler
produces them from the raw query with a compile-time-only cast and no runtime
check. -/
structure UserQueryParams where
  page : Option Int
  limit : Option Int
  name : Option JSStr
  email : Option JSStr
  minAge : Option Int
  maxAge : Option Int
  sortBy : Option JSStr
  sortOrder : Option JSStr
deriving DecidableEq

/-- `page` normalization in `UserService.getUsers`. -/
def getUsersPage (p : UserQueryParams) : Int :=
  max 1 (jsOrNum p.page USER_VALIDATION.DEFAULT_PAGE)

/-- `limit` normalization in `UserService.getUsers`. -/
def getUsersLimit (p : UserQueryParams) : Int :=
  min USER_VALIDATION.MAX_LIMIT (max 1 (jsOrNum p.limit USER_VALIDATION.DEFAULT_LIMIT))

/-- `offset` computation in `UserService.getUsers`. -/
def getUsersOffset (p : UserQueryParams) : Int :=
  (getUsersPage p - 1) * getUsersLimit p

/-- The `whereConditions` / `queryValues` / `paramIndex` triple built by
`UserService.getUsers`. -/
structure QueryBuild where
  whereConditions : List String
  queryValues : List SqlValue
  paramIndex : Nat
deriving DecidableEq

/-- The filter-condition construction of `UserService.getUsers`: one guarded
block per filter, each appending a condition text and a bound value and
bumping `paramIndex`. The `minAge` / `maxAge` blocks push the template
`` `%...%` `` string, exactly as the source does. -/
def getUsersBuild (p : UserQueryParams) : QueryBuild :=
  let b : QueryBuild := ⟨[], [], 1⟩
  let b := if jsTruthy p.name then
      ⟨b.whereConditions ++ ["name ILIKE $" ++ toString b.paramIndex],
       b.queryValues ++ [.str (pctWrap (p.name.getD []))], b.paramIndex + 1⟩
    else b
  let b := if jsTruthy p.email then
      ⟨b.whereConditions ++ ["email ILIKE $" ++ toString b.paramIndex],
       b.queryValues ++ [.str (pctWrap (p.email.getD []))], b.paramIndex + 1⟩
    else b
  let b := if p.minAge.isSome then
      ⟨b.whereConditions ++ ["age >= $" ++ toString b.paramIndex],
       b.queryValues ++ [.str (pctWrap (numCodes (p.minAge.getD 0)))], b.paramIndex + 1⟩
    else b
  let b := if p.maxAge.isSome then
      ⟨b.whereConditions ++ ["age <= $" ++ toString b.paramIndex],
       b.queryValues ++ [.str (pctWrap (numCodes (p.maxAge.getD 0)))], b.paramIndex + 1⟩
    else b
  b

/-- The `whereClause` string of `UserService.getUsers`. -/
def getUsersWhereClause (p : UserQueryParams) : String :=
  let b := getUsersBuild p
  if b.whereConditions.length > 0 then
    "WHERE " ++ String.intercalate " AND " b.whereConditions
  else ""

/-- `sortBy` defaulting in `UserService.getUsers`. -/
def getUsersSortBy (p : UserQueryParams) : JSStr :=
  jsOrStr p.sortBy (codes "created_at")

/-- `sortOrder` defaulting in `UserService.getUsers`. -/
def getUsersSortOrder (p : UserQueryParams) : JSStr :=
  jsOrStr p.sortOrder (codes "DESC")

/-- The `orderByClause` string of `UserService.getUsers`: `sortBy` and
`sortOrder` are interpolated directly into the text. -/
def getUsersOrderByClause (p : UserQueryParams) : String :=
  "ORDER BY " ++ strOfCodes (getUsersSortBy p) ++ " " ++ strOfCodes (getUsersSortOrder p)

/-- The `countQuery` text of `UserService.getUsers`. -/
def getUsersCountQueryText (p : UserQueryParams) : String :=
  "SELECT COUNT(*) FROM users " ++ getUsersWhereClause p

/-- The `usersQuery` text of `UserService.getUsers`, following the template
literal of the source (including its newlines and indentation). -/
def getUsersQueryText (p : UserQueryParams) : String :=
  "\n        SELECT * FROM users\n        " ++ getUsersWhereClause p
    ++ "\n        " ++ getUsersOrderByClause p
    ++ "\n        LIMIT $" ++ toString (getUsersBuild p).paramIndex
    ++ " OFFSET $" ++ toString ((getUsersBuild p).paramIndex + 1)
    ++ "\n        "

/-- The `usersValues` array of `UserService.getUsers`: the filter values
followed by the bound `limit` and `offset`. -/
def getUsersValues (p : UserQueryParams) : List SqlValue :=
  (getUsersBuild p).queryValues ++ [.int (getUsersLimit p), .int (getUsersOffset p)]

/-- Model of the database engine: the effect of a `LIMIT $n OFFSET $m` clause
on the (filtered and sorted) result rows. -/
def sqlPage (rows : List UserRow) (limit offset : Int) : List UserRow :=
  (rows.drop offset.toNat).take limit.toNat

/-- The distinguishable failures thrown by `UserService`, identified by the
message of the `Error` object the source constructs. -/
inductive SvcError
  | validationFailed (errs : List String)
  | emailExists
  | createFailed
deriving DecidableEq

/-- The `message` of the thrown `Error`. -/
def SvcError.message : SvcError → String
  | .validationFailed errs => "Validation failed: " ++ String.intercalate ", " errs
  | .emailExists => "User with this email already exists"
  | .createFailed => "Failed to create user"

/-- `String.prototype.includes`: substring containment. -/
def strContains (h n : String) : Bool :=
  (List.range (h.length + 1)).any (fun i => n.data.isPrefixOf (h.data.drop i))

/-- `UserService.findUserByEmail`: `SELECT * FROM users WHERE email = $1`,
first row or null. -/
def findUserByEmail (db : Db) (email : JSStr) : Option UserRow :=
  db.rows.find? (fun u => u.email == email)

/-- `UserService.createUser`, with the check-then-act race made explicit:
`dbPre` is the table state the email pre-check reads and `dbIns` the state at
which the `INSERT` commits (they coincide when no concurrent writer
interleaves). A unique-constraint violation at insert time is caught by the
`catch` block and rethrown as the generic `Failed to create user` error. -/
def createUserRaced (userData : UserData) (dbPre dbIns : Db) (now : Int) :
    Except SvcError (UserRow × Db) :=
  let sanitizedData := sanitizeUserData userData
  let validationErrors := validateUserData sanitizedData
  if validationErrors ≠ [] then
    .error (.validationFailed validationErrors)
  else
    match findUserByEmail dbPre (sanitizedData.email.getD []) with
    | some _ => .error .emailExists
    | none =>
      if (findUserByEmail dbIns (sanitizedData.email.getD [])).isSome then
        .error .createFailed
      else
        let newUser : UserRow :=
          { id := dbIns.nextId,
            name := sanitizedData.name.getD [],
            email := sanitizedData.email.getD [],
            age := match sanitizedData.age with
              | some a => if a = 0 then none else some a
              | none => none,
            created_at := now,
            updated_at := now }
        .ok (newUser, { rows := dbIns.rows ++ [newUser], nextId := dbIns.nextId + 1 })

/-- `UserService.createUser` in the race-free case. -/
def createUser (userData : UserData) (db : Db) (now : Int) :
    Except SvcError (UserRow × Db) :=
  createUserRaced userData db db now

/-- The status code the `POST /users` catch block assigns to a thrown error,
by inspecting its message. -/
def postUsersStatusOfError (e : SvcError) : Nat :=
  if strContains e.message "Validation failed" then 400
  else if strContains e.message "already exists" then 409
  else 500

/-- The `POST /users` handler: the boundary check on `name` and `email`, then
the service call, mapping success to 201 and errors by message. -/
def postUsers (userData : UserData) (dbPre dbIns : Db) (now : Int) : Nat :=
  if !jsTruthy userData.name || !jsTruthy userData.email then 400
  else
    match createUserRaced userData dbPre dbIns now with
    | .ok _ => 201
    | .error e => postUsersStatusOfError e

/-- `UserService.getUserById`: the guard `!id || id <= 0` throws, otherwise a
primary-key lookup returning null for a missing row. -/
def getUserById (id : Int) (db : Db) : Except String (Option UserRow) :=
  if id = 0 ∨ id ≤ 0 then .error "Invalid user ID"
  else .ok (db.rows.find? (fun u => u.id == id))

/-- `UserService.deleteUser`: `DELETE FROM users WHERE id = $1 RETURNING id`;
an empty returned row set means nothing was deleted and yields `false`. -/
def deleteUser (id : Int) (db : Db) : Except String (Bool × Db) :=
  if id = 0 ∨ id ≤ 0 then .error "Invalid user ID"
  else
    let deletedRows := db.rows.filter (fun u => u.id == id)
    if deletedRows.isEmpty then .ok (false, db)
    else .ok (true, { db with rows := db.rows.filter (fun u => !(u.id == id)) })

/-- Decimal digit test. -/
def isDigit (n : Nat) : Bool := 48 ≤ n && n ≤ 57

/-- Numeric value of a digit string. -/
def digitsToNat (ds : List Nat) : Nat := ds.foldl (fun acc d => acc * 10 + (d - 48)) 0

/-- Model of JavaScript `parseInt` at radix 10: skip leading whitespace, read
an optional sign and then the maximal run of digits; `none` models `NaN`. -/
def jsParseInt (s : JSStr) : Option Int :=
  let t := s.dropWhile isWs
  let signAndRest : Bool × JSStr :=
    match t with
    | 43 :: r => (false, r)
    | 45 :: r => (true, r)
    | _ => (false, t)
  let ds := signAndRest.2.takeWhile isDigit
  if ds.isEmpty then none
  else some (if signAndRest.1 then -(digitsToNat ds : Int) else (digitsToNat ds : Int))

/-- The observable outcome of an id-carrying route: the HTTP status and
whether the service layer was invoked. -/
structure RouteOutcome where
  status : Nat
  reachedService : Bool
deriving DecidableEq

/-- The `GET /users/:id` handler: `parseInt` the path id, reject `NaN` or a
non-positive value with 400 before calling the service, then map null to 404
and a row to 200 (a service throw would map to 500). -/
def getUserByIdRoute (idRaw : JSStr) (db : Db) : RouteOutcome :=
  match jsParseInt idRaw with
  | none => ⟨400, false⟩
  | some userId =>
    if userId ≤ 0 then ⟨400, false⟩
    else
      match getUserById userId db with
      | .error _ => ⟨500, true⟩
      | .ok none => ⟨404, true⟩
      | .ok (some _) => ⟨200, true⟩

/-- The `DELETE /users/:id` handler: the same id guard, then `false` from the
service maps to 404 and `true` to 200. -/
def deleteUserRoute (idRaw : JSStr) (db : Db) : RouteOutcome :=
  match jsParseInt idRaw with
  | none => ⟨400, false⟩
  | some userId =>
    if userId ≤ 0 then ⟨400, false⟩
    else
      match deleteUser userId db with
      | .error _ => ⟨500, true⟩
      | .ok (false, _) => ⟨404, true⟩
      | .ok (true, _) => ⟨200, true⟩

/-- One entry of the `SET` clause built by `UserService.updateUser`. -/
inductive SetEntry
  | setName (v : JSStr)
  | setEmail (v : JSStr)
  | setAge (v : ℚ)
  | touchUpdatedAt
deriving DecidableEq

/-- The `SET` entries built by `UserService.updateUser`: one per field defined
in the sanitized input, in source order, then the unconditional
`updated_at = NOW()`. -/
def updateUserEntries (sanitizedData : UserData) : List SetEntry :=
  (match sanitizedData.name with
    | some v => [.setName v]
    | none => []) ++
  (match sanitizedData.email with
    | some v => [.setEmail v]
    | none => []) ++
  (match sanitizedData.age with
    | some v => [.setAge v]
    | none => []) ++
  [.touchUpdatedAt]

/-- The `updateFields` strings and final `paramIndex` of
`UserService.updateUser`. -/
def updateUserFields (sanitizedData : UserData) : List String × Nat :=
  let b : List String × Nat := ([], 1)
  let b := if sanitizedData.name.isSome then
      (b.1 ++ ["name = $" ++ toString b.2], b.2 + 1)
    else b
  let b := if sanitizedData.email.isSome then
      (b.1 ++ ["email = $" ++ toString b.2], b.2 + 1)
    else b
  let b := if sanitizedData.age.isSome then
      (b.1 ++ ["age = $" ++ toString b.2], b.2 + 1)
    else b
  (b.1 ++ ["updated_at = NOW()"], b.2)

/-- Model of the database engine: the effect of one `SET` entry on a row,
`NOW()` being the update time. -/
def applySetEntry (row : UserRow) (now : Int) : SetEntry → UserRow
  | .setName v => { row with name := v }
  | .setEmail v => { row with email := v }
  | .setAge v => { row with age := some v }
  | .touchUpdatedAt => { row with updated_at := now }

/-- Model of the database engine: the effect of a whole `SET` clause on the
matched row. -/
def applySet (entries : List SetEntry) (row : UserRow) (now : Int) : UserRow :=
  entries.foldl (fun r e => applySetEntry r now e) row

/-! ## Helper lemmas on the string model -/

theorem jsToLower_idem (n : Nat) : jsToLower (jsToLower n) = jsToLower n := by
  unfold jsToLower
  split
  · rename_i h
    split
    · omega
    · rfl
  · rfl

theorem isWs_jsToLower (n : Nat) : isWs (jsToLower n) = isWs n := by
  unfold jsToLower
  split
  · rename_i h
    have h1 : isWs (n + 32) = false := by
      simp only [isWs, Bool.or_eq_false_iff, beq_eq_false_iff_ne, ne_eq]
      omega
    have h2 : isWs n = false := by
      simp only [isWs, Bool.or_eq_false_iff, beq_eq_false_iff_ne, ne_eq]
      omega
    rw [h1, h2]
  · rfl

theorem jsLower_idem (s : JSStr) : jsLower (jsLower s) = jsLower s := by
  unfold jsLower
  induction s with
  | nil => rfl
  | cons a t ih => simp only [List.map_cons, jsToLower_idem, ih]

theorem dropWhile_rdropWhile_dropWhile (p : Nat → Bool) (s : List Nat) :
    ((s.dropWhile p).rdropWhile p).dropWhile p = (s.dropWhile p).rdropWhile p := by
  cases h : (s.dropWhile p).rdropWhile p with
  | nil => rfl
  | cons a t =>
    have hpre := List.rdropWhile_prefix p (s.dropWhile p)
    rw [h] at hpre
    obtain ⟨u, hu⟩ := hpre
    have hne : s.dropWhile p ≠ [] := by
      intro hnil
      rw [hnil] at hu
      simp at hu
    have ha : p ((s.dropWhile p).head hne) = false := List.head_dropWhile_not p s hne
    have hcons : s.dropWhile p = a :: (t ++ u) := by
      rw [← hu]
      rfl
    have hhead : (s.dropWhile p).head hne = a := by
      rw [List.head_eq_iff_head?_eq_some, hcons]
      rfl
    rw [hhead] at ha
    simp [List.dropWhile_cons, ha]

theorem jsTrim_idem (s : JSStr) : jsTrim (jsTrim s) = jsTrim s := by
  unfold jsTrim
  rw [dropWhile_rdropWhile_dropWhile, List.rdropWhile_idempotent]

theorem rdropWhile_map (f : Nat → Nat) (p : Nat → Bool) (l : List Nat) :
    (l.map f).rdropWhile p = (l.rdropWhile (p ∘ f)).map f := by
  unfold List.rdropWhile
  rw [← List.map_reverse, List.dropWhile_map, List.map_reverse]

theorem jsTrim_jsLower_comm (s : JSStr) : jsTrim (jsLower s) = jsLower (jsTrim s) := by
  have hp : (isWs ∘ jsToLower) = isWs := funext isWs_jsToLower
  unfold jsTrim jsLower
  rw [List.dropWhile_map, rdropWhile_map, hp]

/-! ## Helper lemmas on the field sanitizers -/

theorem sanitizeNameField_idem (n : JSStr) :
    sanitizeNameField (sanitizeNameField n) = sanitizeNameField n := by
  unfold sanitizeNameField
  by_cases h : n.isEmpty
  · simp [h]
  · simp only [h, if_false]
    by_cases h2 : (jsTrim n).isEmpty
    · simp [h2]
    · simp [h2, jsTrim_idem]

theorem sanitizeEmailField_idem (e : JSStr) :
    sanitizeEmailField (sanitizeEmailField e) = sanitizeEmailField e := by
  unfold sanitizeEmailField
  by_cases h : e.isEmpty
  · simp [h]
  · simp only [h, if_false]
    by_cases h2 : (jsLower (jsTrim e)).isEmpty
    · simp [h2]
    · simp [h2, jsTrim_jsLower_comm, jsTrim_idem, jsLower_idem]

theorem sanitizeAgeField_idem (a : ℚ) :
    sanitizeAgeField (sanitizeAgeField a) = sanitizeAgeField a := by
  unfold sanitizeAgeField
  by_cases h : a = 0
  · simp [h]
  · simp only [h, if_false]
    by_cases h2 : ((a.floor : Int) : ℚ) = 0
    · simp [h2]
    · have hfl : (((a.floor : Int) : ℚ)).floor = a.floor := by
        have hdef : (((a.floor : Int) : ℚ)).floor = ⌊((a.floor : Int) : ℚ)⌋ := rfl
        rw [hdef, Int.floor_intCast]
      simp [h2, hfl]

/-! ## Claim theorems -/

/-- C1: the claim says `validateUserData` reports no age error exactly when
`0 ≤ age ≤ 100`, and that an age of 150 is rejected with a message naming the
maximum bound. The code instead compares the upper bound against `AGE_MIN`
and interpolates `AGE_MIN` into the message: the in-range age 29 is rejected,
150 is rejected with a message naming 0 rather than 100, the in-range age 0
is reported as missing, and no numeric age at all is accepted. -/
theorem C1_age_validation_defect :
    validateUserData ⟨none, none, some 29⟩ true =
        ["Age must be no more than 0 characters long"] ∧
    validateUserData ⟨none, none, some 150⟩ true =
        ["Age must be no more than 0 characters long"] ∧
    validateUserData ⟨none, none, some 0⟩ true = ["Age is required."] ∧
    (∀ a : ℚ, validateUserData ⟨none, none, some a⟩ true ≠ []) := by
  refine ⟨by decide, by decide, by decide, ?_⟩
  intro a
  unfold validateUserData
  simp only [Bool.not_true, Option.isSome_none, Bool.false_or, if_false, List.nil_append,
    Option.isSome_some, if_true]
  rcases lt_trichotomy a 0 with hlt | heq | hgt
  · have h1 : a ≠ 0 := ne_of_lt hlt
    have h2 : a < USER_VALIDATION.AGE_MIN := by
      simpa [USER_VALIDATION.AGE_MIN] using hlt
    simp [h1, h2]
  · simp [heq]
  · have h1 : a ≠ 0 := ne_of_gt hgt
    have h2 : ¬ a < USER_VALIDATION.AGE_MIN := by
      simp only [USER_VALIDATION.AGE_MIN, not_lt]
      exact le_of_lt hgt
    have h3 : a > USER_VALIDATION.AGE_MIN := by
      simpa [USER_VALIDATION.AGE_MIN] using hgt
    simp [h1, h2, h3]

/-- C2: the claim says every valid creation input succeeds, storing the
trimmed and lower-cased email; sanitization does behave as claimed, but
`createUser` rejects the scenario input `(Ann Lee, ANN@Example.com , 29)`
with a validation failure, for any database state, because of the age
validation defect. -/
theorem C2_createUser_never_succeeds_on_valid_input :
    (∀ (db : Db) (now : Int),
      createUser ⟨some (codes "Ann Lee"), some (codes "ANN@Example.com "), some 29⟩ db now =
        .error (.validationFailed ["Age must be no more than 0 characters long"])) ∧
    sanitizeUserData ⟨some (codes "Ann Lee"), some (codes "ANN@Example.com "), some 29⟩ =
      ⟨some (codes "Ann Lee"), some (codes "ann@example.com"), some 29⟩ :=
  ⟨fun _ _ => rfl, by decide⟩

/-- C3: the claim says the parameters bound to `age >= $n` and `age <= $n`
equal `minAge` and `maxAge`. The code instead binds the template strings
`%30%` and `%40%` (the `LIKE`-pattern wrapping copied from the name and email
branches), not the numbers 30 and 40. -/
theorem C3_age_bounds_bound_as_patterns :
    (getUsersBuild ⟨none, none, none, none, some 30, some 40, none, none⟩).whereConditions =
      ["age >= $1", "age <= $2"] ∧
    (getUsersBuild ⟨none, none, none, none, some 30, some 40, none, none⟩).queryValues =
      [.str (codes "%30%"), .str (codes "%40%")] ∧
    (getUsersBuild ⟨none, none, none, none, some 30, some 40, none, none⟩).queryValues ≠
      [.int 30, .int 40] := by
  refine ⟨by decide, by decide, by decide⟩

/-- C5 counterexample: a supplied `limit` of 0 is falsy, so the code replaces
it by the default 10, whereas clamping 0 into `[1,100]` as the claim states
would give 1. -/
theorem C5_limit_zero_becomes_default :
    getUsersLimit ⟨none, some 0, none, none, none, none, none, none⟩ = 10 ∧
    min USER_VALIDATION.MAX_LIMIT (max 1 (0 : Int)) = 1 := by decide

/-- C6: the claim says duplicate creation yields exactly one success and one
409, even under concurrent submission. In the code no creation can succeed at
all (the age validation defect turns every create into a 400), and even past
validation the racing insert's unique-constraint violation is rethrown as
`Failed to create user`, which the handler maps to 500; only the sequential
pre-check path maps to 409. -/
theorem C6_duplicate_create_no_conflict_mapping :
    (∀ (dbPre dbIns : Db) (now : Int),
      postUsers ⟨some (codes "Ann Lee"), some (codes "ann@example.com"), some 29⟩ dbPre dbIns now
        = 400) ∧
    postUsersStatusOfError .createFailed = 500 ∧
    postUsersStatusOfError .emailExists = 409 := by
  refine ⟨fun _ _ _ => rfl, by decide, by decide⟩

/-- C4 counterexample: two list requests that differ only in the
user-supplied `sortBy` value produce different SQL text, because `sortBy` is
interpolated directly into the ORDER BY clause. -/
theorem C4_sortBy_changes_sql_text :
    getUsersQueryText ⟨none, none, none, none, none, none, some (codes "age"), none⟩ ≠
      getUsersQueryText ⟨none, none, none, none, none, none, some (codes "name"), none⟩ := by
  decide

/-- C4 (amended): the filter values and the pagination values are passed only
as bound parameters: two list requests with the same filter presence pattern
and the same `sortBy` and `sortOrder` produce identical SQL text, whatever
the values of `name`, `email`, `minAge`, `maxAge`, `page` and `limit`; only
`sortBy` and `sortOrder` reach the statement text. -/
theorem C4_only_sort_fields_reach_sql_text (p₁ p₂ : UserQueryParams)
    (hname : jsTruthy p₁.name = jsTruthy p₂.name)
    (hemail : jsTruthy p₁.email = jsTruthy p₂.email)
    (hmin : p₁.minAge.isSome = p₂.minAge.isSome)
    (hmax : p₁.maxAge.isSome = p₂.maxAge.isSome)
    (hsort : p₁.sortBy = p₂.sortBy)
    (horder : p₁.sortOrder = p₂.sortOrder) :
    getUsersQueryText p₁ = getUsersQueryText p₂ ∧
    getUsersCountQueryText p₁ = getUsersCountQueryText p₂ := by
  have hb : (getUsersBuild p₁).whereConditions = (getUsersBuild p₂).whereConditions ∧
      (getUsersBuild p₁).paramIndex = (getUsersBuild p₂).paramIndex := by
    unfold getUsersBuild
    rw [hname, hemail, hmin, hmax]
    cases jsTruthy p₂.name <;> cases jsTruthy p₂.email <;>
      cases p₂.minAge.isSome <;> cases p₂.maxAge.isSome <;> simp
  have hw : getUsersWhereClause p₁ = getUsersWhereClause p₂ := by
    simp only [getUsersWhereClause]
    rw [hb.1]
  have ho : getUsersOrderByClause p₁ = getUsersOrderByClause p₂ := by
    simp only [getUsersOrderByClause, getUsersSortBy, getUsersSortOrder]
    rw [hsort, horder]
  constructor
  · simp only [getUsersQueryText]
    rw [hw, ho, hb.2]
  · simp only [getUsersCountQueryText]
    rw [hw]

/-- C4 witness: two list requests that differ in the values of `page`,
`limit`, `name` and `minAge` but agree on presence and sorting produce the
same SQL text. -/
theorem C4_only_sort_fields_reach_sql_text_witness :
    getUsersQueryText ⟨some 2, some 50, some (codes "ann"), none, some 30, none,
        some (codes "age"), some (codes "ASC")⟩ =
      getUsersQueryText ⟨some 7, some 99, some (codes "bob"), none, some 60, none,
        some (codes "age"), some (codes "ASC")⟩ :=
  (C4_only_sort_fields_reach_sql_text _ _ rfl rfl rfl rfl rfl rfl).1

/-- C5 (amended): `page` defaults to 1 and is clamped to at least 1; `limit`
defaults to 10, a supplied limit of 0 is treated as absent and becomes the
default 10 rather than being clamped to 1, and any other supplied limit is
clamped into `[1,100]`; the offset equals `(page - 1) * limit`; and the LIMIT
clause caps the returned page at `limit` records. -/
theorem C5_pagination_normalization (p : UserQueryParams) :
    1 ≤ getUsersPage p ∧
    (1 ≤ getUsersLimit p ∧ getUsersLimit p ≤ 100) ∧
    (p.page = none → getUsersPage p = 1) ∧
    (∀ v, p.page = some v → getUsersPage p = max 1 v) ∧
    (p.limit = none → getUsersLimit p = 10) ∧
    (p.limit = some 0 → getUsersLimit p = 10) ∧
    (∀ v, p.limit = some v → v ≠ 0 → getUsersLimit p = min 100 (max 1 v)) ∧
    getUsersOffset p = (getUsersPage p - 1) * getUsersLimit p ∧
    (∀ rows : List UserRow,
      (sqlPage rows (getUsersLimit p) (getUsersOffset p)).length ≤ (getUsersLimit p).toNat) := by
  refine ⟨le_max_left 1 _, ⟨?_, ?_⟩, ?_, ?_, ?_, ?_, ?_, rfl, ?_⟩
  · exact le_min (by norm_num [USER_VALIDATION.MAX_LIMIT]) (le_max_left 1 _)
  · simp only [getUsersLimit, USER_VALIDATION.MAX_LIMIT]
    exact min_le_left _ _
  · intro h
    simp [getUsersPage, jsOrNum, h, USER_VALIDATION.DEFAULT_PAGE]
  · intro v h
    rcases eq_or_ne v 0 with rfl | hv
    · simp [getUsersPage, jsOrNum, h, USER_VALIDATION.DEFAULT_PAGE]
    · simp [getUsersPage, jsOrNum, h, hv]
  · intro h
    simp [getUsersLimit, jsOrNum, h, USER_VALIDATION.DEFAULT_LIMIT, USER_VALIDATION.MAX_LIMIT]
  · intro h
    simp [getUsersLimit, jsOrNum, h, USER_VALIDATION.DEFAULT_LIMIT, USER_VALIDATION.MAX_LIMIT]
  · intro v h hv
    simp [getUsersLimit, jsOrNum, h, hv, USER_VALIDATION.MAX_LIMIT]
  · intro rows
    simp only [sqlPage, List.length_take]
    exact min_le_left _ _

/-- C5 witness: a negative page is clamped to 1, an oversized limit is
clamped to 100, and absent limit defaults to 10. -/
theorem C5_pagination_normalization_witness :
    getUsersPage ⟨some (-3), some 250, none, none, none, none, none, none⟩ = max 1 (-3) ∧
    getUsersLimit ⟨some (-3), some 250, none, none, none, none, none, none⟩ =
      min 100 (max 1 250) ∧
    getUsersLimit ⟨none, none, none, none, none, none, none, none⟩ = 10 := by
  have h := C5_pagination_normalization ⟨some (-3), some 250, none, none, none, none, none, none⟩
  have h2 := C5_pagination_normalization ⟨none, none, none, none, none, none, none, none⟩
  exact ⟨h.2.2.2.1 (-3) rfl, h.2.2.2.2.2.2.1 250 rfl (by decide), h2.2.2.2.2.1 rfl⟩

/-- C7: the SET clause built by `updateUser` contains exactly the fields
defined in the sanitized payload plus the unconditional `updated_at = NOW()`;
applying it leaves every omitted field (and `id` and `created_at`) unchanged
and refreshes `updated_at`. -/
theorem C7_update_set_clause_frame (updateData : UserData) (row : UserRow) (now : Int) :
    (SetEntry.touchUpdatedAt ∈ updateUserEntries (sanitizeUserData updateData)) ∧
    ((∃ v, SetEntry.setName v ∈ updateUserEntries (sanitizeUserData updateData)) ↔
      updateData.name.isSome = true) ∧
    ((∃ v, SetEntry.setEmail v ∈ updateUserEntries (sanitizeUserData updateData)) ↔
      updateData.email.isSome = true) ∧
    ((∃ v, SetEntry.setAge v ∈ updateUserEntries (sanitizeUserData updateData)) ↔
      updateData.age.isSome = true) ∧
    (updateUserFields (sanitizeUserData updateData)).1.getLast? = some "updated_at = NOW()" ∧
    (applySet (updateUserEntries (sanitizeUserData updateData)) row now).updated_at = now ∧
    (applySet (updateUserEntries (sanitizeUserData updateData)) row now).id = row.id ∧
    (applySet (updateUserEntries (sanitizeUserData updateData)) row now).created_at =
      row.created_at ∧
    (updateData.name = none →
      (applySet (updateUserEntries (sanitizeUserData updateData)) row now).name = row.name) ∧
    (updateData.email = none →
      (applySet (updateUserEntries (sanitizeUserData updateData)) row now).email = row.email) ∧
    (updateData.age = none →
      (applySet (updateUserEntries (sanitizeUserData updateData)) row now).age = row.age) := by
  obtain ⟨nm, em, ag⟩ := updateData
  cases nm <;> cases em <;> cases ag <;>
    simp [sanitizeUserData, updateUserEntries, updateUserFields, applySet, applySetEntry]

/-- C7 witness: an email-only update leaves name, age, id and created_at
unchanged and refreshes updated_at. -/
theorem C7_update_set_clause_frame_witness :
    (applySet (updateUserEntries (sanitizeUserData ⟨none, some (codes "X@Y.co "), none⟩))
        ⟨5, codes "Ann Lee", codes "ann@example.com", some 29, 100, 100⟩ 777).name =
      codes "Ann Lee" ∧
    (applySet (updateUserEntries (sanitizeUserData ⟨none, some (codes "X@Y.co "), none⟩))
        ⟨5, codes "Ann Lee", codes "ann@example.com", some 29, 100, 100⟩ 777).age = some 29 ∧
    (applySet (updateUserEntries (sanitizeUserData ⟨none, some (codes "X@Y.co "), none⟩))
        ⟨5, codes "Ann Lee", codes "ann@example.com", some 29, 100, 100⟩ 777).updated_at =
      777 := by
  have h := C7_update_set_clause_frame ⟨none, some (codes "X@Y.co "), none⟩
    ⟨5, codes "Ann Lee", codes "ann@example.com", some 29, 100, 100⟩ 777
  exact ⟨h.2.2.2.2.2.2.2.2.1 rfl, h.2.2.2.2.2.2.2.2.2.2 rfl, h.2.2.2.2.2.1⟩

/-- C8: an id whose coercion by parseInt is NaN or non-positive is rejected
with 400 and never reaches the service layer, and those are exactly the
rejected requests; in particular the path id `0` yields 400 for every
database state. -/
theorem C8_nonpositive_id_rejected_before_service :
    (∀ (idRaw : JSStr) (db : Db),
      ((getUserByIdRoute idRaw db).status = 400 ∧
        (getUserByIdRoute idRaw db).reachedService = false) ↔
        (jsParseInt idRaw = none ∨ ∃ v, jsParseInt idRaw = some v ∧ v ≤ 0)) ∧
    (∀ db : Db, getUserByIdRoute (codes "0") db = ⟨400, false⟩) := by
  constructor
  · intro idRaw db
    unfold getUserByIdRoute
    cases h : jsParseInt idRaw with
    | none => simp
    | some v =>
      by_cases hv : v ≤ 0
      · simp [hv]
      · have hnot : ¬ (v = 0 ∨ v ≤ 0) := by omega
        simp only [if_neg hv, getUserById, if_neg hnot]
        cases hfind : db.rows.find? (fun u => u.id == v) with
        | none => simp [hv]
        | some u => simp [hv]
  · intro db
    rfl

/-- C9: deleting a positive id with no matching record returns false rather
than an error, and the delete handler maps that false to 404. -/
theorem C9_delete_missing_id_returns_false (id : Int) (db : Db)
    (hpos : 0 < id) (habs : ∀ u ∈ db.rows, u.id ≠ id) :
    deleteUser id db = .ok (false, db) ∧
    (∀ idRaw, jsParseInt idRaw = some id → deleteUserRoute idRaw db = ⟨404, true⟩) := by
  have hguard : ¬ (id = 0 ∨ id ≤ 0) := by omega
  have hfilter : db.rows.filter (fun u => u.id == id) = [] := by
    rw [List.filter_eq_nil_iff]
    intro u hu
    simpa using habs u hu
  have hdel : deleteUser id db = .ok (false, db) := by
    simp only [deleteUser, if_neg hguard, hfilter, List.isEmpty_nil, if_true]
  refine ⟨hdel, ?_⟩
  intro idRaw hparse
  have hle : ¬ id ≤ 0 := by omega
  simp only [deleteUserRoute, hparse, if_neg hle, hdel]

/-- C9 witness: deleting id 3 from a table holding only id 1 returns false
and the route answers 404. -/
theorem C9_delete_missing_id_returns_false_witness :
    deleteUser 3 ⟨[⟨1, codes "Ann Lee", codes "ann@example.com", some 29, 50, 50⟩], 2⟩ =
      .ok (false, ⟨[⟨1, codes "Ann Lee", codes "ann@example.com", some 29, 50, 50⟩], 2⟩) ∧
    deleteUserRoute (codes "3")
        ⟨[⟨1, codes "Ann Lee", codes "ann@example.com", some 29, 50, 50⟩], 2⟩ = ⟨404, true⟩ := by
  have h := C9_delete_missing_id_returns_false 3
    ⟨[⟨1, codes "Ann Lee", codes "ann@example.com", some 29, 50, 50⟩], 2⟩ (by decide) (by decide)
  exact ⟨h.1, h.2 (codes "3") rfl⟩

/-- C10: `sanitizeUserData` is idempotent, and the set of keys present in its
output equals the set of keys present in its input. -/
theorem C10_sanitizeUserData_idempotent (x : UserData) :
    sanitizeUserData (sanitizeUserData x) = sanitizeUserData x ∧
    (sanitizeUserData x).name.isSome = x.name.isSome ∧
    (sanitizeUserData x).email.isSome = x.email.isSome ∧
    (sanitizeUserData x).age.isSome = x.age.isSome := by
  obtain ⟨nm, em, ag⟩ := x
  refine ⟨?_, ?_, ?_, ?_⟩
  · cases nm <;> cases em <;> cases ag <;>
      simp [sanitizeUserData, sanitizeNameField_idem, sanitizeEmailField_idem,
        sanitizeAgeField_idem]
  · cases nm <;> simp [sanitizeUserData]
  · cases em <;> simp [sanitizeUserData]
  · cases ag <;> simp [sanitizeUserData]
